import Mathlib

/-!
Verification development for the two benchmark-analysis scripts of this
repository:

- scripts/analyze_sample_results.py — the ratio summarizer: for each
  benchmark category it divides a baseline timing by an optimized timing,
  classifies the resulting improvement ratio into one of four bands, counts
  ratios at least 2.0, and declares the null hypothesis rejected when at
  least 3 categories reach that band.

- scripts/generate_statistical_analysis.py — the hypothesis tester:
  perform_hypothesis_test computes group means, an improvement ratio, a
  Student two-sample t test (scipy stats.ttest_ind with its default pooled
  equal-variance formulation), a pooled standard deviation, the Cohen d
  effect size, 95 percent confidence intervals per group, and a boolean
  is_significant; generate_statistical_report counts significant categories
  and decides at the fixed threshold 3.

The numeric code runs on IEEE floats (plain Python floats in the ratio
summarizer, numpy float64 in the hypothesis tester).  The embedding models
float values as exact real numbers together with the three non-finite
outcomes that the code can actually produce, via the type Fl below: numpy
division by zero yields NaN when the numerator is zero and a signed
infinity otherwise, and it never raises; plain Python float division by
zero raises ZeroDivisionError, modelled by Except.  Rounding error is not
modelled: every claim here is about the exact formulas, branch structure
and comparisons of the code, none of which depend on rounding at the
inputs considered.

The calls into scipy are modelled as follows.  stats.ttest_ind with its
defaults performs the Student pooled-variance independent two-sample
t test: t = (m1 - m2) / sqrt(pooledVar * (1/n1 + 1/n2)) and a two-sided
p-value 2 * sf(df, abs t) with df = n1 + n2 - 2, where sf is the survival
function of the t distribution.  stats.t.interval(0.95, df, loc, scale)
returns (loc - q * scale, loc + q * scale) where q is the 0.975 quantile
of the t distribution with df degrees of freedom, and stats.sem(x) is
sqrt(var(x, ddof 1)) / sqrt(n).  The transcendental t distribution itself
is kept abstract as a structure TDist holding the survival function and
the 0.975 quantile; every theorem quantifies over it, and hypotheses state
the one analytic fact used (the 0.975 quantile of a t distribution is
nonnegative).  The survival function of the t distribution tends to 0 at
infinity, which is hard-coded only where scipy evaluates it at an infinite
t statistic.
-/

set_option maxHeartbeats 1000000

/-- Float values as produced by the numeric code: an exact real number, a
signed infinity, or NaN.  Finite inputs are modelled as exact reals. -/
inductive Fl where
  | fin (x : ℝ)
  | pinf
  | ninf
  | nan

/-- Subtraction of float values.  Both operands are finite or NaN at every
use in this development (they are group means or a pooled standard
deviation); NaN propagates as in IEEE arithmetic. -/
noncomputable def Fl.sub : Fl → Fl → Fl
  | .fin a, .fin b => .fin (a - b)
  | _, _ => .nan

/-- Division of float values, IEEE style on the cases this code reaches:
a finite numerator over the finite value zero gives NaN when the numerator
is zero and a signed infinity otherwise, and NaN propagates.  Non-finite
numerators or denominators other than NaN do not arise here. -/
noncomputable def Fl.div : Fl → Fl → Fl
  | .fin a, .fin b =>
      if b = 0 then (if a = 0 then .nan else if 0 < a then .pinf else .ninf)
      else .fin (a / b)
  | _, _ => .nan

/-- Comparison p < c between a float value and a finite real threshold, as
the code writes p_value < alpha.  NaN compares false, as in IEEE. -/
noncomputable def Fl.ltB : Fl → ℝ → Bool
  | .fin a, c => decide (a < c)
  | .ninf, _ => true
  | _, _ => false

/-- Comparison d > c between a float value and a finite real threshold, as
the code writes cohens_d > 0.8.  NaN compares false, as in IEEE. -/
noncomputable def Fl.gtB : Fl → ℝ → Bool
  | .fin a, c => decide (c < a)
  | .pinf, _ => true
  | _, _ => false

/-- Abstract Student t distribution: sf df t is the survival function
(upper tail probability) at t with df degrees of freedom, and ppf975 df is
the 0.975 quantile.  These stand for scipy stats.t.sf and
stats.t.ppf(0.975, df). -/
structure TDist where
  sf : ℕ → ℝ → ℝ
  ppf975 : ℕ → ℝ

noncomputable section

/-- Arithmetic mean of a sample, np.mean on a nonempty array. -/
def mean (xs : List ℝ) : ℝ := xs.sum / (xs.length : ℝ)

/-- Unbiased sample variance, np.var with ddof 1 on a sample of length at
least 2: the sum of squared deviations from the mean over n - 1. -/
def svar (xs : List ℝ) : ℝ :=
  ((xs.map (fun x => (x - mean xs) ^ 2)).sum) / ((xs.length : ℝ) - 1)

/-- Group mean as the float value np.mean returns: the exact mean for a
nonempty sample and NaN for an empty one. -/
def nmean (xs : List ℝ) : Fl :=
  if xs.length = 0 then .nan else .fin (mean xs)

/-- Pooled variance of the two groups as in perform_hypothesis_test:
((n1 - 1) * var1 + (n2 - 1) * var2) / (n1 + n2 - 2), with unbiased
variances.  Stated for groups of length at least 2; shorter groups are
handled by the Fl level wrappers, where numpy produces NaN. -/
def pooledVar (b o : List ℝ) : ℝ :=
  (((b.length : ℝ) - 1) * svar b + ((o.length : ℝ) - 1) * svar o) /
    ((b.length : ℝ) + (o.length : ℝ) - 2)

/-- Pooled standard deviation as the float value the code computes:
np.sqrt of the pooled variance, NaN when either group has fewer than 2
samples (its unbiased variance is then NaN in numpy). -/
def pooledStdFl (b o : List ℝ) : Fl :=
  if b.length ≤ 1 ∨ o.length ≤ 1 then .nan
  else .fin (Real.sqrt (pooledVar b o))

/-- Denominator of the Student t statistic inside scipy stats.ttest_ind:
sqrt(pooledVar * (1/n1 + 1/n2)), NaN when either group has fewer than 2
samples. -/
def tDenomFl (b o : List ℝ) : Fl :=
  if b.length ≤ 1 ∨ o.length ≤ 1 then .nan
  else .fin (Real.sqrt (pooledVar b o * (1 / (b.length : ℝ) + 1 / (o.length : ℝ))))

/-- Student t statistic of scipy stats.ttest_ind with its default pooled
formulation: the difference of the group means over the pooled
denominator, with IEEE outcomes when the denominator is zero or a group is
too short. -/
def tStatFl (b o : List ℝ) : Fl :=
  Fl.div (Fl.sub (nmean b) (nmean o)) (tDenomFl b o)

/-- Two-sided p-value of scipy stats.ttest_ind: twice the survival
function of the t distribution with n1 + n2 - 2 degrees of freedom at the
absolute t statistic.  An infinite t statistic gives p = 0 because the
survival function of the t distribution vanishes at infinity, and a NaN
t statistic gives a NaN p-value. -/
def pValueFl (td : TDist) (b o : List ℝ) : Fl :=
  match tStatFl b o with
  | .fin t => .fin (2 * td.sf (b.length + o.length - 2) |t|)
  | .pinf => .fin 0
  | .ninf => .fin 0
  | .nan => .nan

/-- Standard error of the mean, scipy stats.sem with its default ddof 1:
the unbiased standard deviation over the square root of the sample
size. -/
def semR (xs : List ℝ) : ℝ :=
  Real.sqrt (svar xs) / Real.sqrt (xs.length : ℝ)

/-- The 95 percent confidence interval stats.t.interval(0.95, n - 1,
loc mean, scale sem) returns: the mean shifted by the 0.975 quantile of
the t distribution at n - 1 degrees of freedom times the standard error.
Both endpoints are NaN for samples of fewer than 2 values, where the
standard error is NaN in scipy. -/
def ciFl (td : TDist) (xs : List ℝ) : Fl × Fl :=
  if xs.length ≤ 1 then (.nan, .nan)
  else (.fin (mean xs - td.ppf975 (xs.length - 1) * semR xs),
        .fin (mean xs + td.ppf975 (xs.length - 1) * semR xs))

/-- Source function calculate_effect_size: the Cohen d effect size,
(baseline_mean - optimized_mean) / pooled_std, on float values. -/
def calculate_effect_size (baseline_mean optimized_mean pooled_std : Fl) : Fl :=
  Fl.div (Fl.sub baseline_mean optimized_mean) pooled_std

/-- Result record of perform_hypothesis_test, one field per key of the
returned dictionary. -/
structure StatResult where
  baseline_mean : Fl
  optimized_mean : Fl
  improvement_ratio : Fl
  p_value : Fl
  cohens_d : Fl
  baseline_ci : Fl × Fl
  optimized_ci : Fl × Fl
  is_significant : Bool
  t_statistic : Fl

/-- Source function perform_hypothesis_test.  The alpha parameter defaults
to 0.05 in the source and every call site uses the default.  Group means
and the improvement ratio come from np.mean and float64 division, the
t statistic and p-value from stats.ttest_ind, the pooled standard
deviation and Cohen d from the explicit formulas, the confidence intervals
from stats.t.interval, and is_significant is the conjunction
p_value < alpha and cohens_d > 0.8. -/
def perform_hypothesis_test (td : TDist) (alpha : ℝ)
    (baseline_times optimized_times : List ℝ) : StatResult where
  baseline_mean := nmean baseline_times
  optimized_mean := nmean optimized_times
  improvement_ratio := Fl.div (nmean baseline_times) (nmean optimized_times)
  p_value := pValueFl td baseline_times optimized_times
  cohens_d := calculate_effect_size (nmean baseline_times) (nmean optimized_times)
      (pooledStdFl baseline_times optimized_times)
  baseline_ci := ciFl td baseline_times
  optimized_ci := ciFl td optimized_times
  is_significant :=
    Fl.ltB (pValueFl td baseline_times optimized_times) alpha &&
      Fl.gtB (calculate_effect_size (nmean baseline_times) (nmean optimized_times)
        (pooledStdFl baseline_times optimized_times)) 0.8
  t_statistic := tStatFl baseline_times optimized_times

/-- Count of significant categories in generate_statistical_report: the
loop increments significant_count once per result whose is_significant
field holds. -/
def significant_count (rs : List StatResult) : ℕ :=
  (rs.filter (fun r => r.is_significant)).length

/-- Overall decision of generate_statistical_report: the report reads
REJECT NULL HYPOTHESIS exactly under the branch significant_count >= 3,
and FAIL TO REJECT otherwise. -/
def reject_decision (rs : List StatResult) : Bool :=
  decide (3 ≤ significant_count rs)

/-- Plain Python float division as the ratio summarizer performs it:
baseline_time / optimized_time raises ZeroDivisionError when the divisor
is zero, modelled as the error branch of Except. -/
def py_div (a b : ℝ) : Except Unit ℝ :=
  if b = 0 then .error () else .ok (a / b)

/-- Classification bands of the ratio summarizer, one constructor per
status string printed by analyze_sample_results (SIGNIFICANT, GOOD,
MODEST, REGRESSION). -/
inductive Band where
  | significant
  | good
  | modest
  | regression
deriving DecidableEq

/-- Branch structure classifying an improvement ratio in
analyze_sample_results: ratio at least 2.0 is SIGNIFICANT, else at least
1.5 is GOOD, else at least 1.1 is MODEST, else REGRESSION. -/
def classify (ratio : ℝ) : Band :=
  if 2.0 ≤ ratio then .significant
  else if 1.5 ≤ ratio then .good
  else if 1.1 ≤ ratio then .modest
  else .regression

/-- Count of significant improvements in analyze_sample_results: the
counter increments exactly in the first branch, when the improvement ratio
is at least 2.0. -/
def significant_improvements (ratios : List ℝ) : ℕ :=
  (ratios.filter (fun r => decide ((2.0 : ℝ) ≤ r))).length

/-- Overall decision of analyze_sample_results: the script prints NULL
HYPOTHESIS LIKELY TO BE REJECTED exactly under the branch
significant_improvements >= 3, and INSUFFICIENT EVIDENCE otherwise. -/
def ratio_decision (ratios : List ℝ) : Bool :=
  decide (3 ≤ significant_improvements ratios)

/-- Baseline timing table hardcoded in analyze_sample_results, in
milliseconds. -/
def baseline_results : List (String × ℝ) :=
  [("collection_pipeline", 70.102), ("string_building", 7.2465),
   ("vector_operations", 2.0042), ("hashmap_operations", 1025.1),
   ("nested_structures", 659.10), ("recursive_processing", 29.403),
   ("large_objects", 461.25), ("streaming_simulation", 3.5329),
   ("text_processing", 190.05)]

/-- Optimized timing table hardcoded in analyze_sample_results, in
milliseconds. -/
def optimized_results : List (String × ℝ) :=
  [("collection_pipeline", 21.377), ("string_building", 3.2477),
   ("vector_operations", 0.70256), ("hashmap_operations", 379.75),
   ("nested_structures", 473.63), ("recursive_processing", 34.084),
   ("large_objects", 244.83), ("streaming_simulation", 4.0713),
   ("text_processing", 62.498)]

/-- Sample table hardcoded in generate_statistical_analysis: per category
the baseline samples and the optimized samples. -/
def benchmark_data : List (String × List ℝ × List ℝ) :=
  [("collection_pipeline",
    [70.1, 69.8, 70.5, 69.9, 70.3, 70.0, 69.7, 70.2, 70.4, 69.6],
    [21.4, 21.2, 21.6, 21.3, 21.5, 21.1, 21.7, 21.0, 21.8, 21.9]),
   ("string_building",
    [7.25, 7.20, 7.30, 7.22, 7.28, 7.24, 7.26, 7.21, 7.29, 7.27],
    [3.25, 3.22, 3.28, 3.24, 3.26, 3.23, 3.27, 3.21, 3.29, 3.20]),
   ("vector_operations",
    [2.00, 1.98, 2.02, 1.99, 2.01, 2.03, 1.97, 2.04, 1.96, 2.05],
    [0.70, 0.69, 0.71, 0.68, 0.72, 0.67, 0.73, 0.66, 0.74, 0.65]),
   ("hashmap_operations",
    [1025, 1020, 1030, 1022, 1028, 1024, 1026, 1021, 1029, 1027],
    [380, 378, 382, 379, 381, 377, 383, 376, 384, 375]),
   ("text_processing",
    [190, 188, 192, 189, 191, 187, 193, 186, 194, 185],
    [62.5, 61.8, 63.2, 62.1, 62.9, 61.5, 63.5, 61.2, 63.8, 60.9])]

/-- Per-category analysis loop of generate_statistical_analysis: every
category of the sample table goes through perform_hypothesis_test with the
default alpha 0.05. -/
def analyze_memory_workload_results (td : TDist) : List (String × StatResult) :=
  benchmark_data.map (fun e => (e.1, perform_hypothesis_test td 0.05 e.2.1 e.2.2))

/-- Welch Satterthwaite degrees of freedom, stated from the description in
the specification for comparison with the Student formulation the source
uses; the source never computes this quantity. -/
def welch_df_spec (b o : List ℝ) : ℝ :=
  (svar b / (b.length : ℝ) + svar o / (o.length : ℝ)) ^ 2 /
    ((svar b / (b.length : ℝ)) ^ 2 / ((b.length : ℝ) - 1) +
     (svar o / (o.length : ℝ)) ^ 2 / ((o.length : ℝ) - 1))

/-- Concrete t distribution stand-in used by closed witness statements:
the survival function is constantly 1/100 and the 0.975 quantile is
constantly 2.  Witnesses only need some admissible instance. -/
def td0 : TDist := ⟨fun _ _ => 1 / 100, fun _ => 2⟩

/-- Result record with is_significant set, used by closed witness
statements about the aggregation step. -/
def srSig : StatResult :=
  ⟨.fin 0, .fin 0, .fin 0, .fin 0, .fin 0, (.fin 0, .fin 0), (.fin 0, .fin 0),
   true, .fin 0⟩

end

/-! Helper lemmas about the embedded statistics. -/

theorem mean_pair (a b : ℝ) : mean [a, b] = (a + b) / 2 := by
  simp [mean]

theorem svar_pair (a b : ℝ) : svar [a, b] = (a - b) ^ 2 / 2 := by
  simp [svar, mean]
  ring_nf

theorem svar_nonneg (xs : List ℝ) (h : 2 ≤ xs.length) : 0 ≤ svar xs := by
  apply div_nonneg
  · apply List.sum_nonneg
    intro x hx
    obtain ⟨y, _, rfl⟩ := List.mem_map.1 hx
    positivity
  · have : (2 : ℝ) ≤ (xs.length : ℝ) := by exact_mod_cast h
    linarith

theorem pooledVar_nonneg (b o : List ℝ) (hb : 2 ≤ b.length) (ho : 2 ≤ o.length) :
    0 ≤ pooledVar b o := by
  have hbr : (2 : ℝ) ≤ (b.length : ℝ) := by exact_mod_cast hb
  have hor : (2 : ℝ) ≤ (o.length : ℝ) := by exact_mod_cast ho
  apply div_nonneg
  · have h1 := svar_nonneg b hb
    have h2 := svar_nonneg o ho
    nlinarith
  · linarith

theorem nmean_eq (xs : List ℝ) (h : xs.length ≠ 0) : nmean xs = Fl.fin (mean xs) := by
  simp [nmean, h]

theorem pooledStdFl_eq (b o : List ℝ) (hb : 2 ≤ b.length) (ho : 2 ≤ o.length) :
    pooledStdFl b o = Fl.fin (Real.sqrt (pooledVar b o)) := by
  have : ¬(b.length ≤ 1 ∨ o.length ≤ 1) := by omega
  simp [pooledStdFl, this]

theorem tDenomFl_eq (b o : List ℝ) (hb : 2 ≤ b.length) (ho : 2 ≤ o.length) :
    tDenomFl b o
      = Fl.fin (Real.sqrt (pooledVar b o * (1 / (b.length : ℝ) + 1 / (o.length : ℝ)))) := by
  have : ¬(b.length ≤ 1 ∨ o.length ≤ 1) := by omega
  simp [tDenomFl, this]

theorem tStatFl_eq_of_pos (b o : List ℝ) (hb : 2 ≤ b.length) (ho : 2 ≤ o.length)
    (hp : 0 < pooledVar b o) :
    tStatFl b o
      = Fl.fin ((mean b - mean o) /
          Real.sqrt (pooledVar b o * (1 / (b.length : ℝ) + 1 / (o.length : ℝ)))) := by
  have hbr : (0 : ℝ) < (b.length : ℝ) := by positivity
  have hor : (0 : ℝ) < (o.length : ℝ) := by
    have : 0 < o.length := by omega
    exact_mod_cast this
  have hbr' : (0 : ℝ) < (b.length : ℝ) := by
    have : 0 < b.length := by omega
    exact_mod_cast this
  have hsum : 0 < 1 / (b.length : ℝ) + 1 / (o.length : ℝ) := by positivity
  have hde : 0 < Real.sqrt (pooledVar b o * (1 / (b.length : ℝ) + 1 / (o.length : ℝ))) :=
    Real.sqrt_pos.2 (by positivity)
  rw [tStatFl, tDenomFl_eq b o hb ho, nmean_eq b (by omega), nmean_eq o (by omega)]
  simp only [Fl.sub, Fl.div]
  rw [if_neg (ne_of_gt hde)]

theorem pValueFl_eq_of_pos (td : TDist) (b o : List ℝ) (hb : 2 ≤ b.length)
    (ho : 2 ≤ o.length) (hp : 0 < pooledVar b o) :
    pValueFl td b o
      = Fl.fin (2 * td.sf (b.length + o.length - 2)
          |(mean b - mean o) /
            Real.sqrt (pooledVar b o * (1 / (b.length : ℝ) + 1 / (o.length : ℝ)))|) := by
  rw [pValueFl, tStatFl_eq_of_pos b o hb ho hp]

/-! Claim theorems. -/

/-- C1: for every pair of sample groups with finite p-value and finite
Cohen d, perform_hypothesis_test sets is_significant exactly when the raw
two-sided p-value is strictly below the alpha of 0.05 that every call site
uses and the Cohen d is strictly above 0.8; whenever the Cohen d is at
most 0.8 the result is not significant, whatever the p-value.  The
comparison uses the p-value unadjusted, against the fixed constant 0.05:
no Bonferroni or other multiple-comparison correction appears in the
comparison. -/
theorem perform_hypothesis_test_is_significant_iff :
    (∀ (td : TDist) (b o : List ℝ) (p d : ℝ),
      (perform_hypothesis_test td 0.05 b o).p_value = Fl.fin p →
      (perform_hypothesis_test td 0.05 b o).cohens_d = Fl.fin d →
      ((perform_hypothesis_test td 0.05 b o).is_significant = true ↔
        (p < 0.05 ∧ 0.8 < d)))
    ∧ (∀ (td : TDist) (b o : List ℝ) (d : ℝ),
      (perform_hypothesis_test td 0.05 b o).cohens_d = Fl.fin d → d ≤ 0.8 →
      (perform_hypothesis_test td 0.05 b o).is_significant = false) := by
  constructor
  · intro td b o p d hp hd
    simp only [perform_hypothesis_test] at hp hd ⊢
    rw [hp, hd]
    simp [Fl.ltB, Fl.gtB]
  · intro td b o d hd hle
    simp only [perform_hypothesis_test] at hd ⊢
    rw [hd]
    have : Fl.gtB (Fl.fin d) 0.8 = false := by
      simp only [Fl.gtB, decide_eq_false_iff_not]
      linarith
    rw [this, Bool.and_false]

/-- Witness for C1 at a concrete input: with groups [0, 6] and [1, 1] the
pooled standard deviation is 3 and the Cohen d is 2/3, at most 0.8, so the
result is not significant. -/
theorem perform_hypothesis_test_is_significant_iff_witness :
    (perform_hypothesis_test td0 0.05 [0, 6] [1, 1]).is_significant = false := by
  have hsv1 : svar [0, 6] = 18 := by rw [svar_pair]; norm_num
  have hsv2 : svar [1, 1] = 0 := by rw [svar_pair]; norm_num
  have hpv : pooledVar [0, 6] [1, 1] = 9 := by
    simp [pooledVar, hsv1, hsv2]
    norm_num
  have hsqrt : Real.sqrt 9 = 3 := by
    rw [show (9 : ℝ) = 3 ^ 2 by norm_num, Real.sqrt_sq (by norm_num : (0 : ℝ) ≤ 3)]
  have hcd : (perform_hypothesis_test td0 0.05 [0, 6] [1, 1]).cohens_d = Fl.fin (2 / 3) := by
    simp only [perform_hypothesis_test, calculate_effect_size]
    rw [pooledStdFl_eq _ _ (by simp) (by simp), hpv, hsqrt,
      nmean_eq _ (by simp), nmean_eq _ (by simp), mean_pair, mean_pair]
    simp only [Fl.sub, Fl.div]
    norm_num
  exact perform_hypothesis_test_is_significant_iff.2 td0 [0, 6] [1, 1] (2 / 3) hcd
    (by norm_num)

/-- C2: in both scripts the overall decision is the reject branch exactly
when the count of significant categories is at least the fixed constant 3,
and the decision depends on nothing but that count: two result collections
with the same significant count get the same decision whatever their total
sizes. -/
theorem overall_decision_iff_significant_count_ge_three :
    (∀ rs : List StatResult, reject_decision rs = true ↔ 3 ≤ significant_count rs)
    ∧ (∀ ratios : List ℝ,
        ratio_decision ratios = true ↔ 3 ≤ significant_improvements ratios)
    ∧ (∀ rs rs' : List StatResult, significant_count rs = significant_count rs' →
        reject_decision rs = reject_decision rs')
    ∧ (∀ ratios ratios' : List ℝ,
        significant_improvements ratios = significant_improvements ratios' →
        ratio_decision ratios = ratio_decision ratios') := by
  refine ⟨fun rs => ?_, fun ratios => ?_, fun rs rs' h => ?_, fun ratios ratios' h => ?_⟩
  · simp [reject_decision]
  · simp [ratio_decision]
  · rw [reject_decision, reject_decision, h]
  · rw [ratio_decision, ratio_decision, h]

/-- Witness for C2 at concrete inputs: three significant results trigger
the reject decision, and ratios [2, 2, 1, 2] have three entries at least
2.0 and trigger the reject decision of the ratio summarizer. -/
theorem overall_decision_iff_significant_count_ge_three_witness :
    reject_decision [srSig, srSig, srSig] = true
    ∧ ratio_decision [2, 2, 1, 2] = true := by
  constructor
  · exact (overall_decision_iff_significant_count_ge_three.1 [srSig, srSig, srSig]).mpr
      (by norm_num [significant_count, srSig, List.filter])
  · exact (overall_decision_iff_significant_count_ge_three.2.1 [2, 2, 1, 2]).mpr
      (by norm_num [significant_improvements, List.filter])

/-- C3: for every positive ratio the classification branch of
analyze_sample_results lands in exactly the band the cutoffs describe:
SIGNIFICANT on [2, inf), GOOD on [1.5, 2), MODEST on [1.1, 1.5) and
REGRESSION on (0, 1.1); the four characterizations are mutually exclusive
and exhaustive because classify is a total function into the four bands;
and the significant-improvement counter counts exactly the entries
classified SIGNIFICANT. -/
theorem classify_bands_characterization :
    (∀ r : ℝ, 0 < r →
      ((classify r = Band.significant ↔ 2.0 ≤ r)
       ∧ (classify r = Band.good ↔ 1.5 ≤ r ∧ r < 2.0)
       ∧ (classify r = Band.modest ↔ 1.1 ≤ r ∧ r < 1.5)
       ∧ (classify r = Band.regression ↔ r < 1.1)))
    ∧ (∀ ratios : List ℝ,
        significant_improvements ratios
          = (ratios.filter (fun r => decide (classify r = Band.significant))).length) := by
  have key : ∀ r : ℝ, (decide ((2.0 : ℝ) ≤ r)) = decide (classify r = Band.significant) := by
    intro r
    by_cases h : (2.0 : ℝ) ≤ r
    · simp [classify, h]
    · rw [classify, if_neg h]
      split_ifs <;> simp [h]
  constructor
  · intro r hr
    rw [classify]
    split_ifs with h1 h2 h3 <;> refine ⟨?_, ?_, ?_, ?_⟩ <;> simp
    all_goals first
      | linarith
      | (constructor <;> linarith)
      | (intro h; linarith)
  · intro ratios
    rw [significant_improvements, List.filter_congr (fun x _ => key x)]

/-- Witness for C3 at a concrete input: the ratio 3 is positive and
classified SIGNIFICANT. -/
theorem classify_bands_characterization_witness :
    classify 3 = Band.significant :=
  ((classify_bands_characterization.1 3 (by norm_num)).1).mpr (by norm_num)

/-- C9: for every nonzero timing paired with itself the Python division of
the ratio summarizer returns the ratio exactly 1, and the ratio 1 is
classified REGRESSION because 1 is below the 1.1 cutoff. -/
theorem equal_pair_ratio_one_regression :
    ∀ b : ℝ, b ≠ 0 → py_div b b = Except.ok 1 ∧ classify 1 = Band.regression := by
  intro b hb
  constructor
  · rw [py_div, if_neg hb, div_self hb]
  · rw [classify]
    norm_num

/-- Witness for C9 at a concrete input: the pair (2, 2). -/
theorem equal_pair_ratio_one_regression_witness :
    py_div 2 2 = Except.ok 1 ∧ classify 1 = Band.regression :=
  equal_pair_ratio_one_regression 2 (by norm_num)

/-- C10: for groups of at least 2 samples with nonzero pooled variance,
whenever the optimized mean is at least the baseline mean the Cohen d is
at most 0, below the 0.8 gate, so perform_hypothesis_test reports the
category as not significant; only categories with optimized mean strictly
below the baseline mean can contribute to the reject decision. -/
theorem nonimproving_mean_not_significant :
    ∀ (td : TDist) (b o : List ℝ), 2 ≤ b.length → 2 ≤ o.length →
      pooledVar b o ≠ 0 → mean b ≤ mean o →
      (perform_hypothesis_test td 0.05 b o).is_significant = false := by
  intro td b o hb ho hP hle
  have hpos : 0 < pooledVar b o :=
    lt_of_le_of_ne (pooledVar_nonneg b o hb ho) (Ne.symm hP)
  have hs : 0 < Real.sqrt (pooledVar b o) := Real.sqrt_pos.2 hpos
  simp only [perform_hypothesis_test, calculate_effect_size]
  rw [pooledStdFl_eq b o hb ho, nmean_eq b (by omega), nmean_eq o (by omega)]
  simp only [Fl.sub, Fl.div]
  rw [if_neg (ne_of_gt hs)]
  have hd : (mean b - mean o) / Real.sqrt (pooledVar b o) ≤ 0 :=
    div_nonpos_iff.mpr (Or.inr ⟨by linarith, hs.le⟩)
  have hgt : Fl.gtB (Fl.fin ((mean b - mean o) / Real.sqrt (pooledVar b o))) 0.8 = false := by
    simp only [Fl.gtB, decide_eq_false_iff_not]
    intro hcon
    linarith
  rw [hgt, Bool.and_false]

/-- Witness for C10 at a concrete input: groups [0, 2] and [10, 12] have
pooled variance 2 and the baseline mean 1 is at most the optimized mean
11, so the category is not significant. -/
theorem nonimproving_mean_not_significant_witness :
    (perform_hypothesis_test td0 0.05 [0, 2] [10, 12]).is_significant = false := by
  have hpv : pooledVar [0, 2] [10, 12] = 2 := by
    simp [pooledVar, svar_pair]
    norm_num
  exact nonimproving_mean_not_significant td0 [0, 2] [10, 12] (by simp) (by simp)
    (by rw [hpv]; norm_num) (by rw [mean_pair, mean_pair]; norm_num)

theorem Fl.div_nan (x : Fl) : Fl.div x Fl.nan = Fl.nan := by
  cases x <;> rfl

theorem semR_nonneg (xs : List ℝ) : 0 ≤ semR xs :=
  div_nonneg (Real.sqrt_nonneg _) (Real.sqrt_nonneg _)

theorem ciFl_eq (td : TDist) (xs : List ℝ) (h : 2 ≤ xs.length) :
    ciFl td xs
      = (Fl.fin (mean xs - td.ppf975 (xs.length - 1) * semR xs),
         Fl.fin (mean xs + td.ppf975 (xs.length - 1) * semR xs)) := by
  have : ¬ xs.length ≤ 1 := by omega
  simp [ciFl, this]

/-- C4 counterexample: with both groups equal to [1, 1] the two group
means coincide and both variances are zero, and the Cohen d the code
computes is NaN (numpy evaluates 0.0 / 0.0), not 0; the claim that the
Cohen d is 0 for equal means regardless of the variances fails at this
input. -/
theorem cohens_d_zero_variance_not_zero_counterexample :
    mean [(1 : ℝ), 1] = mean [(1 : ℝ), 1]
    ∧ (perform_hypothesis_test td0 0.05 [1, 1] [1, 1]).cohens_d = Fl.nan
    ∧ Fl.nan ≠ Fl.fin 0 := by
  refine ⟨rfl, ?_, by simp⟩
  have hpv : pooledVar [(1 : ℝ), 1] [(1 : ℝ), 1] = 0 := by
    simp [pooledVar, svar_pair]
  simp only [perform_hypothesis_test, calculate_effect_size]
  rw [pooledStdFl_eq _ _ (by simp) (by simp), hpv, Real.sqrt_zero,
    nmean_eq _ (by simp), mean_pair]
  simp only [Fl.sub, Fl.div]
  norm_num

/-- C4 amended: for groups of at least 2 samples the pooled standard
deviation is sqrt(((n1 - 1) var1 + (n2 - 1) var2) / (n1 + n2 - 2)) with
unbiased sample variances, the Cohen d is the difference of the group
means over that pooled standard deviation, and the Cohen d is exactly 0
whenever the group means are equal and the pooled variance is nonzero;
when both variances are zero the division is 0.0 / 0.0 and the Cohen d is
NaN instead. -/
theorem pooled_std_formula_and_cohens_d_zero_of_eq_means :
    ∀ (td : TDist) (b o : List ℝ), 2 ≤ b.length → 2 ≤ o.length →
      (pooledStdFl b o
        = Fl.fin (Real.sqrt ((((b.length : ℝ) - 1) * svar b
            + ((o.length : ℝ) - 1) * svar o) /
            ((b.length : ℝ) + (o.length : ℝ) - 2))))
      ∧ ((perform_hypothesis_test td 0.05 b o).cohens_d
          = Fl.div (Fl.fin (mean b - mean o)) (Fl.fin (Real.sqrt (pooledVar b o))))
      ∧ (mean b = mean o → pooledVar b o ≠ 0 →
          (perform_hypothesis_test td 0.05 b o).cohens_d = Fl.fin 0) := by
  intro td b o hb ho
  have hform : (perform_hypothesis_test td 0.05 b o).cohens_d
      = Fl.div (Fl.fin (mean b - mean o)) (Fl.fin (Real.sqrt (pooledVar b o))) := by
    simp only [perform_hypothesis_test, calculate_effect_size]
    rw [pooledStdFl_eq b o hb ho, nmean_eq b (by omega), nmean_eq o (by omega)]
    simp only [Fl.sub]
  refine ⟨by rw [pooledStdFl_eq b o hb ho, pooledVar], hform, fun heq hP => ?_⟩
  have hpos : 0 < pooledVar b o :=
    lt_of_le_of_ne (pooledVar_nonneg b o hb ho) (Ne.symm hP)
  have hs : 0 < Real.sqrt (pooledVar b o) := Real.sqrt_pos.2 hpos
  rw [hform]
  simp only [Fl.div]
  rw [if_neg (ne_of_gt hs), heq, sub_self, zero_div]

/-- Witness for the amended C4 at a concrete input: groups [0, 2] and
[1, 1] both have mean 1 and the pooled variance is 1, so the Cohen d is
exactly 0. -/
theorem pooled_std_formula_and_cohens_d_zero_of_eq_means_witness :
    (perform_hypothesis_test td0 0.05 [0, 2] [1, 1]).cohens_d = Fl.fin 0 := by
  have hpv : pooledVar [(0 : ℝ), 2] [(1 : ℝ), 1] = 1 := by
    simp [pooledVar, svar_pair]
    norm_num
  exact (pooled_std_formula_and_cohens_d_zero_of_eq_means td0 [0, 2] [1, 1]
    (by simp) (by simp)).2.2 (by rw [mean_pair, mean_pair]; norm_num)
    (by rw [hpv]; norm_num)

/-- C5: for groups of at least 2 samples with nonzero pooled variance the
t statistic and two-sided p-value returned by perform_hypothesis_test are
exactly those of the Student pooled equal-variance independent two-sample
t test with n1 + n2 - 2 degrees of freedom, the only formulation
stats.ttest_ind applies at its defaults and hence at every call; the Welch
formulation is genuinely different: at the concrete groups [0, 4] and
[1, 1, 1] the Welch Satterthwaite degrees of freedom are 1 while the
Student degrees of freedom are n1 + n2 - 2 = 3. -/
theorem t_test_student_formulation :
    (∀ (td : TDist) (b o : List ℝ), 2 ≤ b.length → 2 ≤ o.length →
      0 < pooledVar b o →
      (perform_hypothesis_test td 0.05 b o).t_statistic
        = Fl.fin ((mean b - mean o) /
            Real.sqrt (pooledVar b o * (1 / (b.length : ℝ) + 1 / (o.length : ℝ))))
      ∧ (perform_hypothesis_test td 0.05 b o).p_value
        = Fl.fin (2 * td.sf (b.length + o.length - 2)
            |(mean b - mean o) /
              Real.sqrt (pooledVar b o * (1 / (b.length : ℝ) + 1 / (o.length : ℝ)))|))
    ∧ welch_df_spec [0, 4] [1, 1, 1]
        ≠ (([0, 4] : List ℝ).length : ℝ) + (([1, 1, 1] : List ℝ).length : ℝ) - 2 := by
  constructor
  · intro td b o hb ho hp
    exact ⟨tStatFl_eq_of_pos b o hb ho hp, pValueFl_eq_of_pos td b o hb ho hp⟩
  · have hsv1 : svar [(0 : ℝ), 4] = 8 := by rw [svar_pair]; norm_num
    have hsv2 : svar [(1 : ℝ), 1, 1] = 0 := by
      simp [svar, mean]
      norm_num
    rw [welch_df_spec, hsv1, hsv2]
    norm_num

/-- Witness for C5 at a concrete input: groups [0, 6] and [1, 1] have
pooled variance 9, so the returned t statistic is the Student formula
evaluated there. -/
theorem t_test_student_formulation_witness :
    (perform_hypothesis_test td0 0.05 [0, 6] [1, 1]).t_statistic
      = Fl.fin ((mean [0, 6] - mean [1, 1]) /
          Real.sqrt (pooledVar [0, 6] [1, 1] *
            (1 / ((([0, 6] : List ℝ).length : ℕ) : ℝ) + 1 / ((([1, 1] : List ℝ).length : ℕ) : ℝ)))) := by
  have hpv : pooledVar [(0 : ℝ), 6] [(1 : ℝ), 1] = 9 := by
    simp [pooledVar, svar_pair]
    norm_num
  exact (t_test_student_formulation.1 td0 [0, 6] [1, 1] (by simp) (by simp)
    (by rw [hpv]; norm_num)).1

/-- C6 counterexample: at the input from the specification scenario,
baseline [1, 1] and optimized [1, 1], both groups have zero variance and
so zero pooled standard deviation, yet perform_hypothesis_test does not
fail: it returns a full result whose improvement ratio is the ordinary
value 1 and whose t statistic, p-value and Cohen d are NaN — a value is
returned and NaN is propagated, contradicting the claim that the
computation fails with a DivisionError instead. -/
theorem zero_variance_returns_nan_counterexample :
    (perform_hypothesis_test td0 0.05 [1, 1] [1, 1]).improvement_ratio = Fl.fin 1
    ∧ (perform_hypothesis_test td0 0.05 [1, 1] [1, 1]).t_statistic = Fl.nan
    ∧ (perform_hypothesis_test td0 0.05 [1, 1] [1, 1]).p_value = Fl.nan := by
  have hpv : pooledVar [(1 : ℝ), 1] [(1 : ℝ), 1] = 0 := by
    simp [pooledVar, svar_pair]
  have hts : tStatFl [(1 : ℝ), 1] [(1 : ℝ), 1] = Fl.nan := by
    rw [tStatFl, tDenomFl_eq _ _ (by simp) (by simp), hpv,
      nmean_eq _ (by simp), mean_pair]
    simp only [Fl.sub, Fl.div]
    norm_num
  refine ⟨?_, hts, ?_⟩
  · simp only [perform_hypothesis_test]
    rw [nmean_eq _ (by simp), mean_pair]
    simp only [Fl.div]
    norm_num
  · simp only [perform_hypothesis_test]
    rw [pValueFl, hts]

/-- C6 amended: a zero optimized scalar makes the ratio summarizer fail
with the Python ZeroDivisionError, as the claim states for that half; but
the hypothesis tester does not fail on a zero pooled standard deviation:
when both groups have zero variance and equal means it returns a result
whose t statistic, p-value and Cohen d are NaN and whose is_significant
is false, propagating NaN rather than raising. -/
theorem zero_denominator_behavior :
    (∀ b : ℝ, py_div b 0 = Except.error ())
    ∧ (∀ (td : TDist) (b o : List ℝ), 2 ≤ b.length → 2 ≤ o.length →
        svar b = 0 → svar o = 0 → mean b = mean o →
        (perform_hypothesis_test td 0.05 b o).t_statistic = Fl.nan
        ∧ (perform_hypothesis_test td 0.05 b o).p_value = Fl.nan
        ∧ (perform_hypothesis_test td 0.05 b o).cohens_d = Fl.nan
        ∧ (perform_hypothesis_test td 0.05 b o).is_significant = false) := by
  constructor
  · intro b
    rw [py_div, if_pos rfl]
  · intro td b o hb ho hvb hvo heq
    have hpv : pooledVar b o = 0 := by
      rw [pooledVar, hvb, hvo]
      simp
    have hts : tStatFl b o = Fl.nan := by
      rw [tStatFl, tDenomFl_eq _ _ hb ho, hpv,
        nmean_eq _ (by omega), nmean_eq _ (by omega), heq]
      simp only [Fl.sub, Fl.div]
      norm_num
    have hcd : calculate_effect_size (nmean b) (nmean o) (pooledStdFl b o) = Fl.nan := by
      rw [calculate_effect_size, pooledStdFl_eq _ _ hb ho, hpv, Real.sqrt_zero,
        nmean_eq _ (by omega), nmean_eq _ (by omega), heq]
      simp only [Fl.sub, Fl.div]
      norm_num
    have hp : pValueFl td b o = Fl.nan := by
      rw [pValueFl, hts]
    refine ⟨hts, ?_, hcd, ?_⟩
    · simp only [perform_hypothesis_test]
      exact hp
    · simp only [perform_hypothesis_test]
      rw [hp, hcd]
      rfl

/-- Witness for the amended C6 at the specification scenario input:
baseline [1, 1] and optimized [1, 1]. -/
theorem zero_denominator_behavior_witness :
    py_div 5 0 = Except.error ()
    ∧ (perform_hypothesis_test td0 0.05 [1, 1] [1, 1]).cohens_d = Fl.nan
    ∧ (perform_hypothesis_test td0 0.05 [1, 1] [1, 1]).is_significant = false := by
  have h := zero_denominator_behavior.2 td0 [1, 1] [1, 1] (by simp) (by simp)
    (by rw [svar_pair]; norm_num) (by rw [svar_pair]; norm_num) rfl
  exact ⟨zero_denominator_behavior.1 5, h.2.2.1, h.2.2.2⟩

/-- C7 counterexample: with a baseline group of a single sample the code
does not fail — no InsufficientSamplesError or any validation exists in
perform_hypothesis_test.  At baseline [1] and optimized [1, 2] it computes
and returns both group means (so computation proceeds) together with a NaN
p-value, contradicting the claim that the computation fails before any
statistic is computed. -/
theorem short_sample_no_error_counterexample :
    (perform_hypothesis_test td0 0.05 [1] [1, 2]).baseline_mean = Fl.fin 1
    ∧ (perform_hypothesis_test td0 0.05 [1] [1, 2]).optimized_mean = Fl.fin (3 / 2)
    ∧ (perform_hypothesis_test td0 0.05 [1] [1, 2]).p_value = Fl.nan := by
  have hts : tStatFl [(1 : ℝ)] [(1 : ℝ), 2] = Fl.nan := by
    have hden : tDenomFl [(1 : ℝ)] [(1 : ℝ), 2] = Fl.nan := by
      rw [tDenomFl, if_pos (Or.inl (by simp))]
    rw [tStatFl, hden, Fl.div_nan]
  refine ⟨?_, ?_, ?_⟩
  · show nmean [1] = Fl.fin 1
    rw [nmean_eq _ (by simp)]
    norm_num [mean]
  · show nmean [1, 2] = Fl.fin (3 / 2)
    rw [nmean_eq _ (by simp), mean_pair]
    norm_num
  · show pValueFl td0 [1] [1, 2] = Fl.nan
    rw [pValueFl, hts]

/-- C7 amended: perform_hypothesis_test performs no sample-size check and
never raises; when either group has fewer than 2 samples it still returns
a full result in which every variance-based statistic (t statistic,
p-value, Cohen d) is NaN and is_significant is false, while each nonempty
group's mean is still computed, so nothing fails before or during the
computation. -/
theorem short_sample_returns_nan :
    ∀ (td : TDist) (alpha : ℝ) (b o : List ℝ), b.length ≤ 1 ∨ o.length ≤ 1 →
      (perform_hypothesis_test td alpha b o).t_statistic = Fl.nan
      ∧ (perform_hypothesis_test td alpha b o).p_value = Fl.nan
      ∧ (perform_hypothesis_test td alpha b o).cohens_d = Fl.nan
      ∧ (perform_hypothesis_test td alpha b o).is_significant = false
      ∧ (b ≠ [] → (perform_hypothesis_test td alpha b o).baseline_mean = Fl.fin (mean b))
      ∧ (o ≠ [] → (perform_hypothesis_test td alpha b o).optimized_mean = Fl.fin (mean o)) := by
  intro td alpha b o hshort
  have hts : tStatFl b o = Fl.nan := by
    have hden : tDenomFl b o = Fl.nan := by
      rw [tDenomFl, if_pos hshort]
    rw [tStatFl, hden, Fl.div_nan]
  have hp : pValueFl td b o = Fl.nan := by
    rw [pValueFl, hts]
  have hcd : calculate_effect_size (nmean b) (nmean o) (pooledStdFl b o) = Fl.nan := by
    have hstd : pooledStdFl b o = Fl.nan := by
      rw [pooledStdFl, if_pos hshort]
    rw [calculate_effect_size, hstd, Fl.div_nan]
  refine ⟨hts, ?_, hcd, ?_, fun hb => ?_, fun ho => ?_⟩
  · rw [perform_hypothesis_test]
    exact hp
  · rw [perform_hypothesis_test]
    rw [hp, hcd]
    rfl
  · rw [perform_hypothesis_test]
    rw [nmean_eq b (by simpa using hb)]
  · show nmean o = Fl.fin (mean o)
    rw [nmean_eq o (by simpa using ho)]

/-- Witness for the amended C7 at a concrete input exercising the
optimized-group-short case: the optimized group [1] has a single sample
while the baseline [1, 2] has two, and the result still carries the
optimized mean while the Cohen d is NaN. -/
theorem short_sample_returns_nan_witness :
    (perform_hypothesis_test td0 0.05 [1, 2] [1]).cohens_d = Fl.nan
    ∧ (perform_hypothesis_test td0 0.05 [1, 2] [1]).optimized_mean = Fl.fin (mean [1]) := by
  have h := short_sample_returns_nan td0 0.05 [1, 2] [1] (Or.inr (by simp))
  exact ⟨h.2.2.1, h.2.2.2.2.2 (by simp)⟩

/-- C8: for groups of at least 2 samples with nonzero variances, under the
analytic fact that the 0.975 quantile of the t distribution is
nonnegative, each confidence interval perform_hypothesis_test returns is
exactly the mean shifted by the quantile at n - 1 degrees of freedom times
the standard error of the mean, and its lower bound is at most the sample
mean, which is at most its upper bound. -/
theorem confidence_interval_brackets_mean :
    ∀ (td : TDist) (b o : List ℝ), 2 ≤ b.length → 2 ≤ o.length →
      svar b ≠ 0 → svar o ≠ 0 →
      0 ≤ td.ppf975 (b.length - 1) → 0 ≤ td.ppf975 (o.length - 1) →
      ((perform_hypothesis_test td 0.05 b o).baseline_ci
          = (Fl.fin (mean b - td.ppf975 (b.length - 1) * semR b),
             Fl.fin (mean b + td.ppf975 (b.length - 1) * semR b))
        ∧ mean b - td.ppf975 (b.length - 1) * semR b ≤ mean b
        ∧ mean b ≤ mean b + td.ppf975 (b.length - 1) * semR b)
      ∧ ((perform_hypothesis_test td 0.05 b o).optimized_ci
          = (Fl.fin (mean o - td.ppf975 (o.length - 1) * semR o),
             Fl.fin (mean o + td.ppf975 (o.length - 1) * semR o))
        ∧ mean o - td.ppf975 (o.length - 1) * semR o ≤ mean o
        ∧ mean o ≤ mean o + td.ppf975 (o.length - 1) * semR o) := by
  intro td b o hb ho _ _ hqb hqo
  have hsb : 0 ≤ td.ppf975 (b.length - 1) * semR b := mul_nonneg hqb (semR_nonneg b)
  have hso : 0 ≤ td.ppf975 (o.length - 1) * semR o := mul_nonneg hqo (semR_nonneg o)
  constructor
  · refine ⟨?_, by linarith, by linarith⟩
    rw [perform_hypothesis_test]
    exact ciFl_eq td b hb
  · refine ⟨?_, by linarith, by linarith⟩
    rw [perform_hypothesis_test]
    exact ciFl_eq td o ho

/-- Witness for C8 at a concrete input: groups [1, 3] and [2, 6], with the
concrete quantile 2 of td0. -/
theorem confidence_interval_brackets_mean_witness :
    mean [1, 3] - td0.ppf975 ((([1, 3] : List ℝ).length) - 1) * semR [1, 3] ≤ mean [1, 3]
    ∧ mean [1, 3] ≤ mean [1, 3] + td0.ppf975 ((([1, 3] : List ℝ).length) - 1) * semR [1, 3] := by
  have h := confidence_interval_brackets_mean td0 [1, 3] [2, 6] (by simp) (by simp)
    (by rw [svar_pair]; norm_num) (by rw [svar_pair]; norm_num)
    (by norm_num [td0]) (by norm_num [td0])
  exact ⟨h.1.2.1, h.1.2.2⟩
